import Mathlib

/-
Verification development for a small JSON document store (JSONDB).
The store keeps an in-memory cache
  { "meta": <json>, "collections": { name: { name: { key: value } } } }
and mirrors it to a single .json file.  Python dicts are modelled as
association lists over String keys (unique keys, insertion order), and
dict assignment / membership / deletion as setKey / hasKey / eraseKey.
-/

/-- JSON values, as produced by json.load.  Numbers are modelled as
integers (no claim depends on non-integral numbers). -/
inductive JSON where
  | null
  | bool (b : Bool)
  | num (n : Int)
  | str (s : String)
  | arr (elems : List JSON)
  | obj (entries : List (String × JSON))

/-- Lookup in a Python dict modelled as an association list. -/
def alookup {α : Type} : List (String × α) → String → Option α
  | [], _ => none
  | p :: rest, k => if k = p.1 then some p.2 else alookup rest k

/-- Python `k in d.keys()`. -/
def hasKey {α : Type} (l : List (String × α)) (k : String) : Bool :=
  (alookup l k).isSome

/-- Python `d[k] = v`: replace in place when the key exists, else append. -/
def setKey {α : Type} : List (String × α) → String → α → List (String × α)
  | [], k, v => [(k, v)]
  | p :: rest, k, v => if k = p.1 then (k, v) :: rest else p :: setKey rest k v

/-- Python `del d[k]` (keys are unique, so removing the first binding). -/
def eraseKey {α : Type} : List (String × α) → String → List (String × α)
  | [], _ => []
  | p :: rest, k => if k = p.1 then rest else p :: eraseKey rest k

/-- The characters Python str.strip() removes by default. -/
def isPyWs (c : Char) : Bool :=
  c = ' ' || c = '\t' || c = '\n' || c = '\r' || c = '\x0b' || c = '\x0c'

/-- Python str.strip(): drop leading and trailing whitespace. -/
def pyStrip (s : String) : String :=
  String.mk (((s.data.dropWhile isPyWs).reverse.dropWhile isPyWs).reverse)

/-- The exception classes of jsondb_errorcode_v1.py. -/
inductive ErrKind where
  | jsonDbError
  | pathError
  | fileError
  | dataError
  | lookUpError
  | insertionError
deriving DecidableEq, Repr

/-- The class attribute `code` of each exception class (1000 is the
fallback code of the base class). -/
def ErrKind.code : ErrKind → Nat
  | .jsonDbError => 1000
  | .pathError => 1001
  | .fileError => 1002
  | .dataError => 1003
  | .lookUpError => 1004
  | .insertionError => 1005

/-- Python `self.__class__.__name__` for each exception class. -/
def ErrKind.className : ErrKind → String
  | .jsonDbError => "JsonDbError"
  | .pathError => "PathError"
  | .fileError => "FileError"
  | .dataError => "DataError"
  | .lookUpError => "LookUpError"
  | .insertionError => "InsertionError"

/-- A JsonDbError exception object: its class and the `message` argument
passed to the constructor (none models Python None). -/
structure JsonDbError where
  kind : ErrKind
  msgArg : Option String

/-- JsonDbError.__init__: `self.message = message or self.__class__.__name__`.
Python `or` takes the class name both for None and for a falsy (empty)
string. -/
def JsonDbError.message (e : JsonDbError) : String :=
  match e.msgArg with
  | none => e.kind.className
  | some s => if s.isEmpty then e.kind.className else s

/-- The `code` attribute read off an exception object. -/
def JsonDbError.code (e : JsonDbError) : Nat :=
  e.kind.code

/-- JsonDbError.__str__. -/
def JsonDbError.render (e : JsonDbError) : String :=
  e.message ++ " [Error Code: " ++ Nat.repr e.code ++ "]"

/-- Errors that JSONDB operations can surface: either one of the
jsondb_errorcode_v1 exceptions (recorded by class, since no claim
inspects a message of an operational error) or a Python built-in
KeyError escaping from an unguarded dict subscript, carrying the
missing key. -/
inductive Err where
  | db (kind : ErrKind)
  | keyError (key : String)
deriving DecidableEq, Repr

/-- An item: the innermost dict, mapping keys to opaque JSON values. -/
abbrev Item := List (String × JSON)

/-- A collection: a dict mapping item names to items. -/
abbrev Collection := List (String × Item)

/-- The collections map: a dict mapping collection names to collections. -/
abbrev Collections := List (String × Collection)

/-- The in-memory database `self._cache`.  The cache is always a dict
with exactly the two keys meta and collections (set up in __init__ and
preserved by every operation), so it is modelled as a two-field
structure.  meta is an arbitrary JSON value: load installs whatever the
file supplies without validating it. -/
structure DB where
  meta : JSON
  collections : Collections

/-- The meta dict installed by the class constructor
(`{"version": 1, "bytes": 0, "updated": now}`). -/
def freshMeta (now : String) : JSON :=
  JSON.obj [("version", JSON.num 1), ("bytes", JSON.num 0),
            ("updated", JSON.str now)]

/-- The database as initialized by the class constructor. -/
def freshDB (now : String) : DB :=
  { meta := freshMeta now, collections := [] }

/-- The item-level step of _validate: an item must be a json object.
Returns the typed item, none modelling the DataError raise. -/
def toItems : List (String × JSON) → Option Collection
  | [] => some []
  | (n, v) :: rest =>
    match v with
    | JSON.obj kvs =>
      match toItems rest with
      | some r => some ((n, kvs) :: r)
      | none => none
    | _ => none

/-- The collection-level loop of _validate: every value of the root dict
must be a json object whose values are json objects. -/
def toColls : List (String × JSON) → Option Collections
  | [] => some []
  | (n, v) :: rest =>
    match v with
    | JSON.obj items =>
      match toItems items with
      | some coll =>
        match toColls rest with
        | some r => some ((n, coll) :: r)
        | none => none
      | none => none
    | _ => none

/-- JSONDB._validate, fused with the conversion to the typed collections
map: succeeds exactly when the data is a json object of objects of
objects; none models the DataError raise. -/
def toCollections : JSON → Option Collections
  | JSON.obj entries => toColls entries
  | _ => none

/-- Serialization of one collection back to JSON (what json.dump sees). -/
def ofCollection (c : Collection) : JSON :=
  JSON.obj (c.map fun p => (p.1, JSON.obj p.2))

/-- Serialization of the collections map back to JSON. -/
def ofCollections (cs : Collections) : JSON :=
  JSON.obj (cs.map fun p => (p.1, ofCollection p.2))

/-- The JSON value json.dump writes for the whole cache. -/
def dbToJSON (db : DB) : JSON :=
  JSON.obj [("meta", db.meta), ("collections", ofCollections db.collections)]

/-- JSONDB.addC.  Name must be a string (always true here) whose strip()
is truthy, then must be absent; dict assignment adds the new collection.
On error nothing has been mutated. -/
def addC (db : DB) (newCollectionName : String) : Option Err × DB :=
  if pyStrip newCollectionName = "" then
    (some (Err.db ErrKind.insertionError), db)
  else if hasKey db.collections newCollectionName then
    (some (Err.db ErrKind.insertionError), db)
  else
    (none, { db with
             collections := setKey db.collections newCollectionName [] })

/-- JSONDB.addI.  Validates the item name first; the membership test
`newItemName not in self._cache["collections"][collection].keys()` then
subscripts the collections dict directly, so an absent collection raises
a Python KeyError. -/
def addI (db : DB) (collection newItemName : String) : Option Err × DB :=
  if pyStrip newItemName = "" then
    (some (Err.db ErrKind.insertionError), db)
  else
    match alookup db.collections collection with
    | none => (some (Err.keyError collection), db)
    | some coll =>
      if hasKey coll newItemName then
        (some (Err.db ErrKind.insertionError), db)
      else
        (none, { db with
                 collections := setKey db.collections collection
                                  (setKey coll newItemName []) })

/-- JSONDB._getI: resolve a collection, then an item inside it, with a
LookUpError (distinct messages in the source) when either is absent. -/
def getI (db : DB) (collection item : String) : Except Err Item :=
  match alookup db.collections collection with
  | none => Except.error (Err.db ErrKind.lookUpError)
  | some coll =>
    match alookup coll item with
    | none => Except.error (Err.db ErrKind.lookUpError)
    | some i => Except.ok i

/-- JSONDB.getValue: resolve the item, then look the key up in it. -/
def getValue (db : DB) (collection item key : String) : Except Err JSON :=
  match getI db collection item with
  | Except.error e => Except.error e
  | Except.ok i =>
    match alookup i key with
    | some v => Except.ok v
    | none => Except.error (Err.db ErrKind.lookUpError)

/-- JSONDB.setValue: resolve the item; a key that is already present is
an InsertionError (write-once), otherwise `i[key] = value` through the
live reference, which lands in the nested cache entry. -/
def setValue (db : DB) (collection item key : String) (value : JSON) :
    Option Err × DB :=
  match alookup db.collections collection with
  | none => (some (Err.db ErrKind.lookUpError), db)
  | some coll =>
    match alookup coll item with
    | none => (some (Err.db ErrKind.lookUpError), db)
    | some i =>
      if hasKey i key then
        (some (Err.db ErrKind.insertionError), db)
      else
        (none, { db with
                 collections := setKey db.collections collection
                                  (setKey coll item (setKey i key value)) })

/-- JSONDB.deleteC: a membership check, then `del`; an absent collection
is a DataError. -/
def deleteC (db : DB) (collection : String) : Option Err × DB :=
  if hasKey db.collections collection then
    (none, { db with collections := eraseKey db.collections collection })
  else
    (some (Err.db ErrKind.dataError), db)

/-- JSONDB.deleteI: the membership test subscripts the collections dict
directly, so an absent collection raises a Python KeyError; an absent
item is a DataError. -/
def deleteI (db : DB) (collection item : String) : Option Err × DB :=
  match alookup db.collections collection with
  | none => (some (Err.keyError collection), db)
  | some coll =>
    if hasKey coll item then
      (none, { db with
               collections := setKey db.collections collection
                                (eraseKey coll item) })
    else
      (some (Err.db ErrKind.dataError), db)

/-- JSONDB.metaUpdate: `self._cache["meta"]["bytes"] = sys.getsizeof(...)`
then `self._cache["meta"]["updated"] = now.isoformat()`.  When meta is
not a dict the first subscript-assignment raises a TypeError before any
mutation (none); when it is a dict both assignments succeed.  The
environment readings (getsizeof result, clock) are passed in. -/
def metaUpdate (db : DB) (size : Nat) (now : String) : Option DB :=
  match db.meta with
  | JSON.obj m =>
    some { db with
           meta := JSON.obj (setKey (setKey m "bytes" (JSON.num size))
                               "updated" (JSON.str now)) }
  | _ => none

/-- What the store finds in the file: empty/whitespace-only content,
content that parses to a JSON value, or unparseable text. -/
inductive FileData where
  | vacant
  | json (j : JSON)
  | unparseable

/-- A store together with its file and the environment: whether opening
the file for reading / writing succeeds, and the readings metaUpdate
takes (sys.getsizeof of the collections dict, and the clock). -/
structure World where
  db : DB
  file : FileData
  readOk : Bool
  writeOk : Bool
  size : Nat
  now : String

/-- JSONDB.load.  Everything runs inside `try ... except Exception`, so
every failure — an I/O error, a parse error, the DataError raised by
_validate, or the TypeError/AttributeError a non-dict root causes in
`len(d) == 2 and "meta" in d.keys() ...` — is re-raised as a FileError.
The cache is only assigned after validation, in one statement. -/
def pyLoad (w : World) : Option Err × World :=
  if !w.readOk then (some (Err.db ErrKind.fileError), w)
  else
    match w.file with
    | FileData.vacant => (none, w)
    | FileData.unparseable => (some (Err.db ErrKind.fileError), w)
    | FileData.json d =>
      match d with
      | JSON.obj entries =>
        if entries.length == 2 && hasKey entries "meta"
            && hasKey entries "collections" then
          match toCollections ((alookup entries "collections").getD JSON.null)
          with
          | some c =>
            (none, { w with db := { meta := (alookup entries "meta").getD
                                              JSON.null,
                                    collections := c } })
          | none => (some (Err.db ErrKind.fileError), w)
        else
          match toColls entries with
          | some c => (none, { w with db := { w.db with collections := c } })
          | none => (some (Err.db ErrKind.fileError), w)
      | _ => (some (Err.db ErrKind.fileError), w)

/-- JSONDB.save: metaUpdate first (inside the try, so its TypeError is
re-raised as a FileError, with the cache untouched), then open for
writing and json.dump.  A failing write still leaves the cache with the
refreshed meta. -/
def pySave (w : World) : Option Err × World :=
  match metaUpdate w.db w.size w.now with
  | none => (some (Err.db ErrKind.fileError), w)
  | some db2 =>
    if w.writeOk then
      (none, { w with db := db2, file := FileData.json (dbToJSON db2) })
    else
      (some (Err.db ErrKind.fileError), { w with db := db2 })

/-- The public operations of the store. -/
inductive Op where
  | load
  | save
  | addCollection (name : String)
  | addItem (collection name : String)
  | setValue (collection item key : String) (value : JSON)
  | deleteCollection (collection : String)
  | deleteItem (collection item : String)

/-- Run a purely in-memory operation inside the world. -/
def liftDB (f : DB → Option Err × DB) (w : World) : Option Err × World :=
  ((f w.db).1, { w with db := (f w.db).2 })

/-- One public operation applied to the world: the raised error if any,
and the state after the call (Python exceptions do not roll back
mutations already performed). -/
def applyOp : Op → World → Option Err × World
  | Op.load, w => pyLoad w
  | Op.save, w => pySave w
  | Op.addCollection n, w => liftDB (fun db => addC db n) w
  | Op.addItem c n, w => liftDB (fun db => addI db c n) w
  | Op.setValue c i k v, w => liftDB (fun db => setValue db c i k v) w
  | Op.deleteCollection c, w => liftDB (fun db => deleteC db c) w
  | Op.deleteItem c i, w => liftDB (fun db => deleteI db c i) w

/-- Run a sequence of operations, keeping the state each call leaves
behind whether or not it raised. -/
def runOps (ops : List Op) (w : World) : World :=
  ops.foldl (fun w op => (applyOp op w).2) w

/-- Whether an operation is save. -/
def isSave : Op → Bool
  | Op.save => true
  | _ => false

/-- Whether an operation is load. -/
def isLoad : Op → Bool
  | Op.load => true
  | _ => false

/-- All item names of a collection are non-empty. -/
def itemNamesOk (coll : Collection) : Bool :=
  coll.all fun q => !(q.1 == "")

/-- All collection names and all item names are non-empty. -/
def namesOk (cs : Collections) : Bool :=
  cs.all fun p => !(p.1 == "") && itemNamesOk p.2

/-- A fresh store whose file holds the JSON text `[1]` (root is an array). -/
def arrRootWorld : World :=
  { db := freshDB "t0", file := FileData.json (JSON.arr [JSON.num 1]),
    readOk := true, writeOk := true, size := 0, now := "t0" }

/-- A fresh store whose file holds `{"a": "s"}` (a top-level value that is
a string, not an object). -/
def strValueWorld : World :=
  { db := freshDB "t0", file := FileData.json (JSON.obj [("a", JSON.str "s")]),
    readOk := true, writeOk := true, size := 0, now := "t0" }

/-- A fresh store whose file holds `{"meta": 5, "collections": {}}`:
canonical wrapper shape with a non-object meta. -/
def junkMetaWorld : World :=
  { db := freshDB "t0",
    file := FileData.json (JSON.obj [("meta", JSON.num 5),
                                     ("collections", JSON.obj [])]),
    readOk := true, writeOk := true, size := 7, now := "t1" }

/-- A store with one collection, one item and one value, all environment
calls succeeding. -/
def rtWorld : World :=
  { db := { meta := freshMeta "t0",
            collections := [("users", [("alice", [("email",
                              JSON.str "a@x.com")])])] },
    file := FileData.vacant, readOk := true, writeOk := true,
    size := 9, now := "t1" }

/-- A fresh store whose next file write will fail (e.g. the file was made
read-only after construction), with the clock now reading t1. -/
def failWriteWorld : World :=
  { db := freshDB "t0", file := FileData.vacant, readOk := true,
    writeOk := false, size := 64, now := "t1" }

/-- A fresh store with a working file. -/
def plainWorld : World :=
  { db := freshDB "t0", file := FileData.vacant, readOk := true,
    writeOk := true, size := 0, now := "t0" }

/-- A database holding one collection c with one item i that maps k to 1. -/
def oneKeyDB : DB :=
  { meta := freshMeta "t0", collections := [("c", [("i", [("k",
      JSON.num 1)])])] }

/-- A fresh store whose file holds `{"": {}}`: a raw collections map with
an empty-string collection name. -/
def emptyNameWorld : World :=
  { db := freshDB "t0", file := FileData.json (JSON.obj [("", JSON.obj [])]),
    readOk := true, writeOk := true, size := 0, now := "t0" }

/-- A database holding one empty collection named c. -/
def oneCollDB : DB :=
  { meta := freshMeta "t0", collections := [("c", [])] }

/-- A fresh store over a file holding a raw one-collection map
`{c: {i: {k: v}}}` with no meta/collections wrapper. -/
def rawFileWorld (c i k : String) (v : JSON) : World :=
  { db := freshDB "t0",
    file := FileData.json (JSON.obj [(c, JSON.obj [(i, JSON.obj [(k, v)])])]),
    readOk := true, writeOk := true, size := 0, now := "t0" }

/-- A fresh store over a file holding `{"meta": m, "collections": {}}`
for an arbitrary JSON value m. -/
def metaFileWorld (m : JSON) : World :=
  { db := freshDB "t0",
    file := FileData.json (JSON.obj [("meta", m), ("collections",
              JSON.obj [])]),
    readOk := true, writeOk := true, size := 0, now := "t0" }

theorem alookup_setKey_self {α : Type} (l : List (String × α)) (k : String)
    (v : α) : alookup (setKey l k v) k = some v := by
  induction l with
  | nil => simp [setKey, alookup]
  | cons p rest ih =>
    by_cases hk : k = p.1
    · simp [setKey, hk, alookup]
    · simp [setKey, hk, alookup, ih]

theorem alookup_setKey_ne {α : Type} (l : List (String × α)) (k k' : String)
    (v : α) (h : k' ≠ k) : alookup (setKey l k v) k' = alookup l k' := by
  induction l with
  | nil => simp [setKey, alookup, h]
  | cons p rest ih =>
    by_cases hk : k = p.1
    · subst hk; simp [setKey, alookup, h]
    · simp [setKey, hk, alookup, ih]

theorem alookup_eq_none_of_not_hasKey {α : Type} (l : List (String × α))
    (k : String) (h : hasKey l k = false) : alookup l k = none := by
  cases e : alookup l k with
  | none => rfl
  | some v => unfold hasKey at h; rw [e] at h; cases h

theorem setKey_of_not_hasKey {α : Type} (l : List (String × α)) (k : String)
    (v : α) (h : hasKey l k = false) : setKey l k v = l ++ [(k, v)] := by
  induction l with
  | nil => simp [setKey]
  | cons p rest ih =>
    unfold hasKey alookup at h
    by_cases hk : k = p.1
    · rw [if_pos hk] at h; cases h
    · rw [if_neg hk] at h
      simp [setKey, hk, ih h]

theorem all_setKey {α : Type} (P : String × α → Bool) (l : List (String × α))
    (k : String) (v : α) (h : l.all P = true) (hv : P (k, v) = true) :
    (setKey l k v).all P = true := by
  induction l with
  | nil => simp [setKey, hv]
  | cons p rest ih =>
    simp only [List.all_cons, Bool.and_eq_true] at h
    by_cases hk : k = p.1
    · unfold setKey
      rw [if_pos hk]
      simp only [List.all_cons, Bool.and_eq_true]
      exact ⟨hv, h.2⟩
    · simp [setKey, hk, List.all_cons, h.1, ih h.2]

theorem all_eraseKey {α : Type} (P : String × α → Bool) (l : List (String × α))
    (k : String) (h : l.all P = true) : (eraseKey l k).all P = true := by
  induction l with
  | nil => simp [eraseKey]
  | cons p rest ih =>
    simp only [List.all_cons, Bool.and_eq_true] at h
    by_cases hk : k = p.1
    · simp [eraseKey, hk, h.2]
    · simp [eraseKey, hk, List.all_cons, h.1, ih h.2]

theorem alookup_all {α : Type} (P : String × α → Bool) (l : List (String × α))
    (k : String) (v : α) (h : l.all P = true) (hl : alookup l k = some v) :
    P (k, v) = true := by
  induction l with
  | nil => cases hl
  | cons p rest ih =>
    simp only [List.all_cons, Bool.and_eq_true] at h
    unfold alookup at hl
    by_cases hk : k = p.1
    · rw [if_pos hk] at hl
      have hv : p.2 = v := by injection hl
      rw [hk, ← hv]
      simpa using h.1
    · rw [if_neg hk] at hl
      exact ih h.2 hl

theorem pyStrip_ne_empty (s : String) (h : pyStrip s ≠ "") : s ≠ "" := by
  intro hs
  subst hs
  exact h (by decide)

theorem toItems_map_obj (c : Collection) :
    toItems (c.map fun p => (p.1, JSON.obj p.2)) = some c := by
  induction c with
  | nil => rfl
  | cons p rest ih => simp [toItems, ih]

theorem toColls_map_ofCollection (cs : Collections) :
    toColls (cs.map fun p => (p.1, ofCollection p.2)) = some cs := by
  induction cs with
  | nil => rfl
  | cons p rest ih =>
    simp only [ofCollection] at ih ⊢
    simp [toColls, toItems_map_obj, ih]

theorem toCollections_ofCollections (cs : Collections) :
    toCollections (ofCollections cs) = some cs := by
  simp [toCollections, ofCollections, toColls_map_ofCollection]

theorem pyLoad_error_eq (w : World) (h : (pyLoad w).1 ≠ none) :
    (pyLoad w).2 = w := by
  cases hr : w.readOk with
  | false => simp [pyLoad, hr]
  | true =>
    cases hf : w.file with
    | vacant => exact absurd (by simp [pyLoad, hr, hf]) h
    | unparseable => simp [pyLoad, hr, hf]
    | json d =>
      cases d with
      | null => simp [pyLoad, hr, hf]
      | bool b => simp [pyLoad, hr, hf]
      | num n => simp [pyLoad, hr, hf]
      | str s => simp [pyLoad, hr, hf]
      | arr xs => simp [pyLoad, hr, hf]
      | obj entries =>
        cases hc : (entries.length == 2 && hasKey entries "meta"
            && hasKey entries "collections") with
        | true =>
          cases hv : toCollections ((alookup entries "collections").getD
              JSON.null) with
          | some c => exact absurd (by simp [pyLoad, hr, hf, hc, hv]) h
          | none => simp [pyLoad, hr, hf, hc, hv]
        | false =>
          cases hv : toColls entries with
          | some c => exact absurd (by simp [pyLoad, hr, hf, hc, hv]) h
          | none => simp [pyLoad, hr, hf, hc, hv]

theorem metaUpdate_collections (db : DB) (s : Nat) (n : String) (db2 : DB)
    (h : metaUpdate db s n = some db2) : db2.collections = db.collections := by
  unfold metaUpdate at h
  cases hm : db.meta with
  | obj m =>
    rw [hm] at h
    have h2 : { db with
                meta := JSON.obj (setKey (setKey m "bytes" (JSON.num s))
                          "updated" (JSON.str n)) } = db2 := by
      injection h
    rw [← h2]
  | null => rw [hm] at h; cases h
  | bool b => rw [hm] at h; cases h
  | num x => rw [hm] at h; cases h
  | str x => rw [hm] at h; cases h
  | arr xs => rw [hm] at h; cases h

theorem pySave_error_collections (w : World) (h : (pySave w).1 ≠ none) :
    (pySave w).2.db.collections = w.db.collections := by
  cases hmu : metaUpdate w.db w.size w.now with
  | none => simp [pySave, hmu]
  | some db2 =>
    cases hw : w.writeOk with
    | true => exact absurd (by simp [pySave, hmu, hw]) h
    | false =>
      simp only [pySave, hmu, hw, Bool.false_eq_true, if_false]
      exact metaUpdate_collections _ _ _ _ hmu

theorem applyOp_namesOk (op : Op) (w : World) (hop : isLoad op = false)
    (h : namesOk w.db.collections = true) :
    namesOk (applyOp op w).2.db.collections = true := by
  cases op with
  | load => cases hop
  | save =>
    simp only [applyOp]
    cases hmu : metaUpdate w.db w.size w.now with
    | none => simpa [pySave, hmu] using h
    | some db2 =>
      have hcol := metaUpdate_collections _ _ _ _ hmu
      cases hw : w.writeOk with
      | true =>
        simp only [pySave, hmu, hw, if_true]
        rw [show ({ w with db := db2, file := FileData.json (dbToJSON db2)
              } : World).db.collections = db2.collections from rfl, hcol]
        exact h
      | false =>
        simp only [pySave, hmu, hw, Bool.false_eq_true, if_false]
        rw [show ({ w with db := db2 } : World).db.collections
              = db2.collections from rfl, hcol]
        exact h
  | addCollection n =>
    simp only [applyOp, liftDB]
    unfold addC
    by_cases h1 : pyStrip n = ""
    · simpa [h1] using h
    · cases h2 : hasKey w.db.collections n with
      | true => simpa [h1, h2] using h
      | false =>
        simp only [h1, h2, if_neg, if_false, Bool.false_eq_true]
        unfold namesOk at h ⊢
        apply all_setKey _ _ _ _ h
        have hn := pyStrip_ne_empty n h1
        simp [itemNamesOk, hn]
  | addItem c n =>
    simp only [applyOp, liftDB]
    unfold addI
    by_cases h1 : pyStrip n = ""
    · simpa [h1] using h
    · cases hl : alookup w.db.collections c with
      | none => simpa [h1, hl] using h
      | some coll =>
        cases h2 : hasKey coll n with
        | true => simpa [h1, hl, h2] using h
        | false =>
          simp only [h1, hl, h2, if_neg, if_false, Bool.false_eq_true]
          unfold namesOk at h ⊢
          have hP := alookup_all _ _ _ _ h hl
          simp only [Bool.and_eq_true] at hP
          apply all_setKey _ _ _ _ h
          simp only [Bool.and_eq_true]
          refine ⟨hP.1, ?_⟩
          unfold itemNamesOk at hP ⊢
          apply all_setKey _ _ _ _ hP.2
          have hn := pyStrip_ne_empty n h1
          simp [hn]
  | setValue c i k v =>
    simp only [applyOp, liftDB]
    unfold setValue
    cases hl : alookup w.db.collections c with
    | none => simpa [hl] using h
    | some coll =>
      cases hi : alookup coll i with
      | none => simpa [hl, hi] using h
      | some it =>
        cases h2 : hasKey it k with
        | true => simpa [hl, hi, h2] using h
        | false =>
          simp only [hl, hi, h2, Bool.false_eq_true, if_false]
          unfold namesOk at h ⊢
          have hP := alookup_all _ _ _ _ h hl
          simp only [Bool.and_eq_true] at hP
          apply all_setKey _ _ _ _ h
          simp only [Bool.and_eq_true]
          refine ⟨hP.1, ?_⟩
          unfold itemNamesOk at hP ⊢
          have hQ := alookup_all _ _ _ _ hP.2 hi
          apply all_setKey _ _ _ _ hP.2
          simpa using hQ
  | deleteCollection c =>
    simp only [applyOp, liftDB]
    unfold deleteC
    cases h2 : hasKey w.db.collections c with
    | false => simpa [h2] using h
    | true =>
      simp only [h2, if_true]
      unfold namesOk at h ⊢
      exact all_eraseKey _ _ _ h
  | deleteItem c i =>
    simp only [applyOp, liftDB]
    unfold deleteI
    cases hl : alookup w.db.collections c with
    | none => simpa [hl] using h
    | some coll =>
      cases h2 : hasKey coll i with
      | false => simpa [hl, h2] using h
      | true =>
        simp only [hl, h2, if_true]
        unfold namesOk at h ⊢
        have hP := alookup_all _ _ _ _ h hl
        simp only [Bool.and_eq_true] at hP
        apply all_setKey _ _ _ _ h
        simp only [Bool.and_eq_true]
        refine ⟨hP.1, ?_⟩
        unfold itemNamesOk at hP ⊢
        exact all_eraseKey _ _ _ hP.2

theorem runOps_namesOk (ops : List Op) (w : World)
    (h0 : namesOk w.db.collections = true)
    (hops : ops.all (fun op => !isLoad op) = true) :
    namesOk ((runOps ops w).db.collections) = true := by
  induction ops generalizing w with
  | nil => exact h0
  | cons op rest ih =>
    simp only [List.all_cons, Bool.and_eq_true, Bool.not_eq_true'] at hops
    exact ih (applyOp op w).2 (applyOp_namesOk op w hops.1 h0)
      (by simpa using hops.2)

theorem addC_error_eq (db : DB) (n : String) (h : (addC db n).1 ≠ none) :
    (addC db n).2 = db := by
  unfold addC at h ⊢
  by_cases h1 : pyStrip n = ""
  · simp [h1]
  · cases h2 : hasKey db.collections n with
    | true => simp [h1, h2]
    | false => exact absurd (by simp [h1, h2]) h

theorem addI_error_eq (db : DB) (c n : String) (h : (addI db c n).1 ≠ none) :
    (addI db c n).2 = db := by
  unfold addI at h ⊢
  by_cases h1 : pyStrip n = ""
  · simp [h1]
  · cases hl : alookup db.collections c with
    | none => simp [h1, hl]
    | some coll =>
      cases h2 : hasKey coll n with
      | true => simp [h1, hl, h2]
      | false => exact absurd (by simp [h1, hl, h2]) h

theorem setValue_error_eq (db : DB) (c i k : String) (v : JSON)
    (h : (setValue db c i k v).1 ≠ none) : (setValue db c i k v).2 = db := by
  unfold setValue at h ⊢
  cases hl : alookup db.collections c with
  | none => simp [hl]
  | some coll =>
    cases hi : alookup coll i with
    | none => simp [hl, hi]
    | some it =>
      cases h2 : hasKey it k with
      | true => simp [hl, hi, h2]
      | false => exact absurd (by simp [hl, hi, h2]) h

theorem deleteC_error_eq (db : DB) (c : String) (h : (deleteC db c).1 ≠ none) :
    (deleteC db c).2 = db := by
  unfold deleteC at h ⊢
  cases h2 : hasKey db.collections c with
  | true => exact absurd (by simp [h2]) h
  | false => simp [h2]

theorem deleteI_error_eq (db : DB) (c i : String)
    (h : (deleteI db c i).1 ≠ none) : (deleteI db c i).2 = db := by
  unfold deleteI at h ⊢
  cases hl : alookup db.collections c with
  | none => simp [hl]
  | some coll =>
    cases h2 : hasKey coll i with
    | true => exact absurd (by simp [hl, h2]) h
    | false => simp [hl, h2]


/-- C1: per the spec, loading a file whose JSON root is not an object of
objects of objects fails with DataError.  _validate does raise
DataError, but load runs it inside a blanket `except Exception` that
re-raises everything as FileError, so the caller actually sees
FileError (code 1002) rather than DataError (code 1003).  At the file
text [1] (array root) and at a top-level string value, load fails with
FileError and the in-memory database is unchanged. -/
theorem load_invalid_structure_raises_fileError :
    (pyLoad arrRootWorld).1 = some (Err.db ErrKind.fileError) ∧
    (pyLoad arrRootWorld).2 = arrRootWorld ∧
    (pyLoad strValueWorld).1 = some (Err.db ErrKind.fileError) ∧
    (pyLoad strValueWorld).2 = strValueWorld :=
  ⟨rfl, rfl, rfl, rfl⟩

/-- C2 counterexample: the state reached by loading
{"meta": 5, "collections": {}} from a fresh store (one public
operation) is reachable, yet save on it fails — the subscript
assignment into the non-dict meta raises a TypeError that save
re-raises as FileError — so "save then load succeeds" does not hold of
every reachable state. -/
theorem save_fails_after_nonobject_meta_load :
    (pyLoad junkMetaWorld).1 = none ∧
    (pyLoad junkMetaWorld).2.db.meta = JSON.num 5 ∧
    (pySave (pyLoad junkMetaWorld).2).1 = some (Err.db ErrKind.fileError) :=
  ⟨rfl, rfl, rfl⟩

/-- C2 (amended): for every store state whose meta value is a JSON
object — true of every reachable state except those produced by
loading a file with a non-object meta — save followed by load on the
same path succeeds and reproduces the collections map exactly. -/
theorem save_then_load_preserves_collections (w : World)
    (m : List (String × JSON)) (hm : w.db.meta = JSON.obj m)
    (hw : w.writeOk = true) (hr : w.readOk = true) :
    (pySave w).1 = none ∧
    (pyLoad (pySave w).2).1 = none ∧
    (pyLoad (pySave w).2).2.db.collections = w.db.collections := by
  cases hmu : metaUpdate w.db w.size w.now with
  | none =>
    unfold metaUpdate at hmu
    rw [hm] at hmu
    cases hmu
  | some db2 =>
    have hdb2c : db2.collections = w.db.collections :=
      metaUpdate_collections _ _ _ _ hmu
    have hsave : pySave w
        = (none, { w with
                   db := db2
                   file := FileData.json (dbToJSON db2) }) := by
      unfold pySave
      rw [hmu]
      simp [hw]
    have hne : ("collections" : String) ≠ "meta" := by decide
    refine ⟨by rw [hsave], ?_, ?_⟩
    · rw [hsave]
      simp [pyLoad, hr, dbToJSON, hasKey, alookup, hne,
            toCollections_ofCollections]
    · rw [hsave]
      simp [pyLoad, hr, dbToJSON, hasKey, alookup, hne,
            toCollections_ofCollections, hdb2c]

/-- C2 witness: a store with one collection, one item and one stored
value round-trips through save and load with its collections map
intact. -/
theorem save_then_load_preserves_collections_witness :
    (pySave rtWorld).1 = none ∧
    (pyLoad (pySave rtWorld).2).1 = none ∧
    (pyLoad (pySave rtWorld).2).2.db.collections = rtWorld.db.collections :=
  save_then_load_preserves_collections rtWorld
    [("version", JSON.num 1), ("bytes", JSON.num 0),
     ("updated", JSON.str "t0")] rfl rfl rfl

/-- C3 counterexample: save refreshes meta via metaUpdate and only then
opens the file for writing; when the write fails, the FileError leaves
the refreshed meta behind, so the failing save call is not
all-or-nothing. -/
theorem save_write_failure_mutates_meta :
    (applyOp Op.save failWriteWorld).1 = some (Err.db ErrKind.fileError) ∧
    (applyOp Op.save failWriteWorld).2.db.meta
      = JSON.obj [("version", JSON.num 1), ("bytes", JSON.num 64),
                  ("updated", JSON.str "t1")] ∧
    failWriteWorld.db.meta
      = JSON.obj [("version", JSON.num 1), ("bytes", JSON.num 0),
                  ("updated", JSON.str "t0")] ∧
    (applyOp Op.save failWriteWorld).2.db ≠ failWriteWorld.db := by
  refine ⟨rfl, rfl, rfl, ?_⟩
  intro hEq
  have h2 : JSON.obj [("version", JSON.num 1), ("bytes", JSON.num 64),
      ("updated", JSON.str "t1")]
      = JSON.obj [("version", JSON.num 1), ("bytes", JSON.num 0),
      ("updated", JSON.str "t0")] := congrArg DB.meta hEq
  simp at h2

/-- C3 (amended): every operation other than save is all-or-nothing —
if it raises, the whole store state is exactly as before the call;
save never leaves a partially-changed collections map, but on a failed
write it can leave meta already refreshed. -/
theorem error_leaves_state_unchanged (op : Op) (w : World)
    (h : (applyOp op w).1 ≠ none) :
    (applyOp op w).2.db.collections = w.db.collections ∧
    (isSave op = false → (applyOp op w).2 = w) := by
  cases op with
  | load =>
    have h2 := pyLoad_error_eq w h
    exact ⟨by rw [show (applyOp Op.load w).2 = w from h2], fun _ => h2⟩
  | save =>
    refine ⟨pySave_error_collections w h, fun hf => ?_⟩
    simp [isSave] at hf
  | addCollection n =>
    have h2 := addC_error_eq w.db n h
    refine ⟨?_, fun _ => ?_⟩
    · show (addC w.db n).2.collections = w.db.collections
      rw [h2]
    · show ({ w with db := (addC w.db n).2 } : World) = w
      rw [h2]
  | addItem c n =>
    have h2 := addI_error_eq w.db c n h
    refine ⟨?_, fun _ => ?_⟩
    · show (addI w.db c n).2.collections = w.db.collections
      rw [h2]
    · show ({ w with db := (addI w.db c n).2 } : World) = w
      rw [h2]
  | setValue c i k v =>
    have h2 := setValue_error_eq w.db c i k v h
    refine ⟨?_, fun _ => ?_⟩
    · show (setValue w.db c i k v).2.collections = w.db.collections
      rw [h2]
    · show ({ w with db := (setValue w.db c i k v).2 } : World) = w
      rw [h2]
  | deleteCollection c =>
    have h2 := deleteC_error_eq w.db c h
    refine ⟨?_, fun _ => ?_⟩
    · show (deleteC w.db c).2.collections = w.db.collections
      rw [h2]
    · show ({ w with db := (deleteC w.db c).2 } : World) = w
      rw [h2]
  | deleteItem c i =>
    have h2 := deleteI_error_eq w.db c i h
    refine ⟨?_, fun _ => ?_⟩
    · show (deleteI w.db c i).2.collections = w.db.collections
      rw [h2]
    · show ({ w with db := (deleteI w.db c i).2 } : World) = w
      rw [h2]

/-- C3 witness: addCollection with a whitespace-only name raises and
leaves the store untouched. -/
theorem error_leaves_state_unchanged_witness :
    (applyOp (Op.addCollection " ") plainWorld).2.db.collections
      = plainWorld.db.collections ∧
    (isSave (Op.addCollection " ") = false →
      (applyOp (Op.addCollection " ") plainWorld).2 = plainWorld) :=
  error_leaves_state_unchanged (Op.addCollection " ") plainWorld (by decide)

/-- C4: when resolving item i in collection c succeeds, setValue on a
key that is already present fails with InsertionError and getValue
still returns the previously stored value; setValue on an absent key
inserts the pair, which getValue then returns. -/
theorem setValue_write_once (db : DB) (c i k : String) (it : Item)
    (h : getI db c i = Except.ok it) :
    (∀ v1 v2 : JSON, getValue db c i k = Except.ok v1 →
      (setValue db c i k v2).1 = some (Err.db ErrKind.insertionError) ∧
      getValue (setValue db c i k v2).2 c i k = Except.ok v1) ∧
    (∀ v : JSON,
      getValue db c i k = Except.error (Err.db ErrKind.lookUpError) →
      (setValue db c i k v).1 = none ∧
      getValue (setValue db c i k v).2 c i k = Except.ok v) := by
  obtain ⟨coll, hl, hi⟩ :
      ∃ coll, alookup db.collections c = some coll ∧
        alookup coll i = some it := by
    unfold getI at h
    split at h
    · cases h
    · rename_i coll hl
      split at h
      · cases h
      · rename_i itx hi
        injection h with h2
        exact ⟨coll, hl, h2 ▸ hi⟩
  constructor
  · intro v1 v2 hv
    simp only [getValue, getI, hl, hi] at hv
    cases hk : alookup it k with
    | none => simp [hk] at hv
    | some u =>
      simp only [hk] at hv
      injection hv with hu
      subst hu
      have hkk : hasKey it k = true := by unfold hasKey; rw [hk]; rfl
      refine ⟨?_, ?_⟩
      · simp [setValue, hl, hi, hkk]
      · simp [setValue, getValue, getI, hl, hi, hkk, hk]
  · intro v hv
    simp only [getValue, getI, hl, hi] at hv
    cases hk : alookup it k with
    | some u => simp [hk] at hv
    | none =>
      have hkk : hasKey it k = false := by unfold hasKey; rw [hk]; rfl
      refine ⟨?_, ?_⟩
      · simp [setValue, hl, hi, hkk]
      · simp [setValue, getValue, getI, hl, hi, hkk,
              alookup_setKey_self]

/-- C4 witness: over a store holding c.i.k = 1, a second setValue of k
fails with InsertionError and getValue still reads 1, while setValue of
the fresh key k2 succeeds and getValue reads the new value. -/
theorem setValue_write_once_witness :
    ((setValue oneKeyDB "c" "i" "k" (JSON.num 2)).1
        = some (Err.db ErrKind.insertionError) ∧
      getValue (setValue oneKeyDB "c" "i" "k" (JSON.num 2)).2 "c" "i" "k"
        = Except.ok (JSON.num 1)) ∧
    ((setValue oneKeyDB "c" "i" "k2" (JSON.num 3)).1 = none ∧
      getValue (setValue oneKeyDB "c" "i" "k2" (JSON.num 3)).2 "c" "i" "k2"
        = Except.ok (JSON.num 3)) :=
  ⟨(setValue_write_once oneKeyDB "c" "i" "k" [("k", JSON.num 1)] rfl).1
      (JSON.num 1) (JSON.num 2) rfl,
   (setValue_write_once oneKeyDB "c" "i" "k2" [("k", JSON.num 1)] rfl).2
      (JSON.num 3) rfl⟩

/-- C5 counterexample: names are validated only by addC/addI; load
installs whatever names the file has, so loading the raw map {"": {}}
— one public operation from a fresh store — leaves an empty-string
collection name in memory. -/
theorem load_admits_empty_collection_name :
    (pyLoad emptyNameWorld).1 = none ∧
    (pyLoad emptyNameWorld).2.db.collections = [("", [])] ∧
    namesOk (pyLoad emptyNameWorld).2.db.collections = false :=
  ⟨rfl, rfl, rfl⟩

/-- C5 (amended): along every sequence of public operations from a
fresh store that does not contain load, all collection names and item
names stay non-empty (addCollection/addItem enforce non-emptiness);
load performs no name validation and can break the invariant. -/
theorem names_nonempty_without_load (ops : List Op) (fd : FileData)
    (r wk : Bool) (sz : Nat) (t0 t1 : String)
    (hops : ops.all (fun op => !isLoad op) = true) :
    namesOk ((runOps ops
      { db := freshDB t0
        file := fd
        readOk := r
        writeOk := wk
        size := sz
        now := t1 }).db.collections) = true :=
  runOps_namesOk ops _ rfl hops

/-- C5 witness: a concrete load-free run keeps all names non-empty. -/
theorem names_nonempty_without_load_witness :
    namesOk ((runOps [Op.addCollection "users", Op.addItem "users" "alice",
        Op.save]
      { db := freshDB "t0"
        file := FileData.vacant
        readOk := true
        writeOk := true
        size := 3
        now := "t1" }).db.collections) = true :=
  names_nonempty_without_load
    [Op.addCollection "users", Op.addItem "users" "alice", Op.save]
    FileData.vacant true true 3 "t0" "t1" (by decide)

/-- C6: with the target collection absent and the item name valid,
addItem and deleteItem let the Python KeyError from the unguarded
collections-dict subscript escape, rather than raising
InsertionError, DataError or LookUpError. -/
theorem absent_collection_raises_keyError (db : DB) (c n i : String)
    (hc : hasKey db.collections c = false) (hn : pyStrip n ≠ "") :
    (addI db c n).1 = some (Err.keyError c) ∧
    (deleteI db c i).1 = some (Err.keyError c) := by
  have h0 : alookup db.collections c = none :=
    alookup_eq_none_of_not_hasKey _ _ hc
  constructor
  · simp [addI, hn, h0]
  · simp [deleteI, h0]

/-- C6 witness: on a fresh store, both operations surface the KeyError
for the missing collection. -/
theorem absent_collection_raises_keyError_witness :
    (addI (freshDB "t0") "missing" "x").1 = some (Err.keyError "missing") ∧
    (deleteI (freshDB "t0") "missing" "y").1
      = some (Err.keyError "missing") :=
  absent_collection_raises_keyError (freshDB "t0") "missing" "x" "y" rfl
    (by decide)

/-- C7: loading a raw one-collection map {c: {i: {k: v}}} (no
meta/collections wrapper) succeeds, leaves the freshly-initialized meta
untouched, and yields exactly the collections map that
addCollection(c); addItem(c,i); setValue(c,i,k,v) produce on a fresh
store. -/
theorem tolerant_load_equals_op_sequence (c i k : String) (v : JSON)
    (hc : pyStrip c ≠ "") (hi : pyStrip i ≠ "") :
    (pyLoad (rawFileWorld c i k v)).1 = none ∧
    (pyLoad (rawFileWorld c i k v)).2.db.meta = freshMeta "t0" ∧
    (addC (freshDB "t0") c).1 = none ∧
    (addI (addC (freshDB "t0") c).2 c i).1 = none ∧
    (setValue (addI (addC (freshDB "t0") c).2 c i).2 c i k v).1 = none ∧
    (pyLoad (rawFileWorld c i k v)).2.db.collections
      = (setValue (addI (addC (freshDB "t0") c).2 c i).2 c i k
          v).2.collections := by
  refine ⟨rfl, rfl, ?_, ?_, ?_, ?_⟩ <;>
    simp [pyLoad, rawFileWorld, addC, addI, setValue, hc, hi,
          hasKey, alookup, setKey, toColls, toItems, freshDB]

/-- C7 witness: the documented example file {"users": {"alice":
{"email": "a@x.com"}}}. -/
theorem tolerant_load_equals_op_sequence_witness :
    (pyLoad (rawFileWorld "users" "alice" "email"
        (JSON.str "a@x.com"))).1 = none ∧
    (pyLoad (rawFileWorld "users" "alice" "email"
        (JSON.str "a@x.com"))).2.db.meta = freshMeta "t0" ∧
    (addC (freshDB "t0") "users").1 = none ∧
    (addI (addC (freshDB "t0") "users").2 "users" "alice").1 = none ∧
    (setValue (addI (addC (freshDB "t0") "users").2 "users" "alice").2
        "users" "alice" "email" (JSON.str "a@x.com")).1 = none ∧
    (pyLoad (rawFileWorld "users" "alice" "email"
        (JSON.str "a@x.com"))).2.db.collections
      = (setValue (addI (addC (freshDB "t0") "users").2 "users" "alice").2
          "users" "alice" "email" (JSON.str "a@x.com")).2.collections :=
  tolerant_load_equals_op_sequence "users" "alice" "email"
    (JSON.str "a@x.com") (by decide) (by decide)

/-- C8: the message of an error object defaults to its class name when
no message is supplied, its code is the fixed code of the class, and __str__
renders exactly "<message> [Error Code: <code>]". -/
theorem error_message_code_render (k : ErrKind) (mo : Option String) :
    (JsonDbError.mk k none).message = k.className ∧
    (JsonDbError.mk k mo).code = k.code ∧
    (JsonDbError.mk k mo).render
      = (JsonDbError.mk k mo).message ++ " [Error Code: "
          ++ Nat.repr k.code ++ "]" :=
  ⟨rfl, rfl, rfl⟩

/-- C9: a file {"meta": m, "collections": {}} — canonical wrapper shape
— loads successfully for every JSON value m, and m, unvalidated,
becomes the in-memory meta. -/
theorem canonical_load_accepts_any_meta (m : JSON) :
    (pyLoad (metaFileWorld m)).1 = none ∧
    (pyLoad (metaFileWorld m)).2.db.meta = m ∧
    (pyLoad (metaFileWorld m)).2.db.collections = [] := by
  refine ⟨?_, ?_, ?_⟩ <;> rfl

/-- C10: addC and addI store the given name verbatim: a name with
surrounding whitespace (strip-non-empty) is accepted and stored with
the whitespace kept, and looking up any other name — in particular the
trimmed form — is unaffected. -/
theorem names_stored_verbatim (db : DB) (name c : String)
    (coll : Collection) (h1 : pyStrip name ≠ "")
    (h2 : hasKey db.collections name = false)
    (hc : alookup db.collections c = some coll)
    (h3 : hasKey coll name = false) :
    ((addC db name).1 = none ∧
     (addC db name).2.collections = db.collections ++ [(name, [])] ∧
     ∀ other : String, other ≠ name →
       alookup (addC db name).2.collections other
         = alookup db.collections other) ∧
    ((addI db c name).1 = none ∧
     (addI db c name).2.collections
       = setKey db.collections c (coll ++ [(name, [])])) := by
  refine ⟨⟨?_, ?_, ?_⟩, ?_, ?_⟩
  · simp [addC, h1, h2]
  · simp [addC, h1, h2, setKey_of_not_hasKey _ _ _ h2]
  · intro other ho
    simp [addC, h1, h2, alookup_setKey_ne _ _ _ _ ho]
  · simp [addI, h1, hc, h3]
  · simp [addI, h1, hc, h3, setKey_of_not_hasKey _ _ _ h3]

/-- C10 witness: " x " is stored with its blanks both as a collection
name and as an item name, and the lookup of the distinct name "x" is
untouched. -/
theorem names_stored_verbatim_witness :
    ((addC oneCollDB " x ").1 = none ∧
     (addC oneCollDB " x ").2.collections
       = oneCollDB.collections ++ [(" x ", [])] ∧
     alookup (addC oneCollDB " x ").2.collections "x"
       = alookup oneCollDB.collections "x") ∧
    ((addI oneCollDB "c" " x ").1 = none ∧
     (addI oneCollDB "c" " x ").2.collections
       = setKey oneCollDB.collections "c" ([] ++ [(" x ", [])])) := by
  have T := names_stored_verbatim oneCollDB " x " "c" [] (by decide) rfl
    rfl rfl
  exact ⟨⟨T.1.1, T.1.2.1, T.1.2.2 "x" (by decide)⟩, T.2⟩
